import Mathlib

/-!
ELDEVODE/auth — frontend session handling and media codec

A shallow embedding of `src/auth_frontend/src/App.jsx` and
`src/auth_frontend/src/text.jsx`.

* A call with more arguments than the engine accepts throws a `RangeError`; the bound is a
  field of `World`, and is at least the `0xffff` arguments of one chunk.

* Byte buffers (`Uint8Array`, `ArrayBuffer`, candid `vec nat8`) are lists of `Fin 256`.
* JavaScript strings are Lean strings; every string built by the codec consists of
  code units `0..255` (and of ASCII for base64 text), where the two notions agree.
* Asynchronous handlers are run to completion: a handler takes the render snapshot of the
  component state (the values its closure captured) plus the answers of the outside world
  (backend replies, provider flow), and returns the state after all its `setX` calls
  together with the ordered trace of its observable effects.
-/

namespace Auth

/-! ## Platform values -/

/-- One element of a `Uint8Array`. -/
abbrev Byte := Fin 256

/-- A `Uint8Array` / `ArrayBuffer` / candid `vec nat8`. -/
abbrev Uint8Array := List Byte

/-- The view `uint8Array.subarray(begin, end)` for non-negative indices: both ends are clamped to
the length, and an end below the begin gives the empty view. -/
def subarray (a : Uint8Array) (b e : Nat) : Uint8Array :=
  (a.take e).drop b

/-- The code unit `String.fromCharCode` makes of one byte. -/
def charOfByte (b : Byte) : Char := Char.ofNat b.val

/-- The string `String.fromCharCode.apply(null, bytes)` of a call the engine accepts: one
code unit per argument, in order. The decode loop of `App.jsx` calls it on at most
`0xffff` arguments. -/
def fromCharCode (bytes : Uint8Array) : String :=
  String.mk (bytes.map charOfByte)

/-- The string `chunks.join("")`. -/
def join (chunks : List String) : String :=
  chunks.foldl (fun acc s => acc ++ s) ""

/-- The base64 alphabet of RFC 4648, table 1. -/
def base64Alphabet : List Char :=
  "ABCDEFGHIJKLMNOPQRSTUVWXYZabcdefghijklmnopqrstuvwxyz0123456789+/".toList

/-- The base64 character of a 6-bit value. -/
def base64Char (n : Nat) : Char := base64Alphabet.getD n 'A'

/-- The single-pass base64 encoding of a byte sequence (RFC 4648 §4, with padding). -/
def base64Encode : List Byte → List Char
  | [] => []
  | [a] =>
    [base64Char (a.val / 4), base64Char (a.val % 4 * 16), '=', '=']
  | [a, b] =>
    [base64Char (a.val / 4), base64Char (a.val % 4 * 16 + b.val / 16),
     base64Char (b.val % 16 * 4), '=']
  | a :: b :: c :: rest =>
    base64Char (a.val / 4) :: base64Char (a.val % 4 * 16 + b.val / 16) ::
      base64Char (b.val % 16 * 4 + c.val / 64) :: base64Char (c.val % 64) ::
      base64Encode rest

/-- A thrown JavaScript value: whether it is `instanceof Error`, and its `message`. -/
structure JsError where
  isError : Bool
  message : String
  deriving DecidableEq, Repr

/-- How an evaluation ends: with a value, or by throwing. -/
inductive Completion (α : Type) where
  | ok (value : α)
  | throw (e : JsError)
  deriving DecidableEq, Repr

/-- The `InvalidCharacterError` a browser throws from `btoa`. -/
def invalidCharacterError : JsError :=
  { isError := true, message := "The string to be encoded contains characters outside of the Latin1 range." }

/-- The byte a code unit stands for in a binary string. -/
def byteOfChar (c : Char) : Byte := ⟨c.toNat % 256, Nat.mod_lt _ (by decide)⟩

/-- The call `btoa(s)` (WHATWG HTML): throws when a code unit of `s` is above 0xFF, otherwise the
base64 encoding of the bytes the code units stand for. -/
def btoa (s : String) : Completion String :=
  if s.data.all (fun c => decide (c.toNat ≤ 255)) then
    .ok (String.mk (base64Encode (s.data.map byteOfChar)))
  else
    .throw invalidCharacterError

/-- The `RangeError` an engine throws from a call that is given more arguments than it
accepts (the wording of the message differs between engines). -/
def rangeError : JsError :=
  { isError := true, message := "Maximum call stack size exceeded" }

/-- The call `String.fromCharCode(...bytes)` on an engine that accepts at most
`maxArguments` arguments in one call: the spread makes one argument of every byte, so a
longer buffer ends the call with a `RangeError`. -/
def fromCharCodeSpread (maxArguments : Nat) (bytes : Uint8Array) : Completion String :=
  if bytes.length ≤ maxArguments then .ok (fromCharCode bytes) else .throw rangeError

/-! ## The chunked decode of `App.jsx` `fetchImages` -/

/-- The constant `const chunkSize = 0xffff;` of `fetchImages`. -/
def chunkSize : Nat := 0xffff

/-- The variables of the decode loop: the `chunks` array, and (ghost) the argument list of
every `String.fromCharCode.apply` call made so far, in call order. -/
structure LoopState where
  chunks : List String
  calls : List Uint8Array
  deriving DecidableEq, Repr

/-- The loop
`for (let i = 0; i < uint8Array.length; i += chunkSize) chunks.push(String.fromCharCode.apply(null, uint8Array.subarray(i, i + chunkSize)))`
from loop variable `i` on. -/
def decodeLoop (uint8Array : Uint8Array) (i : Nat) (st : LoopState) : LoopState :=
  if i < uint8Array.length then
    let arg := subarray uint8Array i (i + chunkSize)
    decodeLoop uint8Array (i + chunkSize)
      { chunks := st.chunks ++ [fromCharCode arg], calls := st.calls ++ [arg] }
  else
    st
termination_by uint8Array.length - i
decreasing_by
  simp only [chunkSize]
  omega

/-- The loop started as in the source: `chunks = []`, `i = 0`. -/
def decodeChunks (uint8Array : Uint8Array) : LoopState :=
  decodeLoop uint8Array 0 { chunks := [], calls := [] }

/-- The `k`-th consecutive slice of `chunkSize` bytes of a buffer, counted from 0. -/
def slice (uint8Array : Uint8Array) (k : Nat) : Uint8Array :=
  subarray uint8Array (k * chunkSize) (k * chunkSize + chunkSize)

/-- The number `ceil(n / chunkSize)` of slices an `n`-byte buffer spans. -/
def numChunks (n : Nat) : Nat := (n + (chunkSize - 1)) / chunkSize

/-- Lines 211-222 of `App.jsx`: `btoa(chunks.join(""))` after the loop. -/
def base64DataChunked (data : Uint8Array) : Completion String :=
  btoa (join (decodeChunks data).chunks)

/-- Line 145 of `text.jsx`: `btoa(String.fromCharCode(...new Uint8Array(data)))`, on an
engine that accepts at most `maxArguments` arguments in one call. -/
def base64DataSinglePass (maxArguments : Nat) (data : Uint8Array) : Completion String :=
  match fromCharCodeSpread maxArguments data with
  | .throw e => .throw e
  | .ok binary => btoa binary

/-! ## Values crossing the RPC boundary -/

/-- The identity an agent signs calls with: the anonymous one, or a delegation the identity
provider issued for a principal. -/
inductive Identity where
  | anonymous
  | delegation (principal : String)
  deriving DecidableEq, Repr

/-- The text of `identity.getPrincipal().toString()`. -/
def Identity.principalText : Identity → String
  | .anonymous => "2vxsx-fae"
  | .delegation p => p

/-- An `AuthClient` handle, as far as the components use it: the identity `getIdentity()`
returns. `isAuthenticated()` holds when that is a delegation. -/
structure AuthClient where
  identity : Identity
  deriving DecidableEq, Repr

/-- An actor made by `Actor.createActor` from the interface factory, an agent and the
canister id: the fixed method table of the backend, called through an agent that signs with `identity`. -/
structure Actor where
  identity : Identity
  deriving DecidableEq, Repr

/-- A JavaScript value, as far as property tests on a backend reply can tell values apart. -/
inductive JsValue where
  | undefined
  | null
  | bool (b : Bool)
  | number (n : Int)
  | string (s : String)
  | object
  deriving DecidableEq, Repr

/-- ToBoolean of a value, as an `if` applies it. -/
def JsValue.truthy : JsValue → Bool
  | .undefined => false
  | .null => false
  | .bool b => b
  | .number n => n != 0
  | .string s => s != ""
  | .object => true

/-- A plain object: its own properties, in insertion order. -/
abbrev JsObject := List (String × JsValue)

/-- The test `key in obj`. -/
def JsObject.hasKey (obj : JsObject) (key : String) : Bool :=
  obj.any (fun kv => kv.1 == key)

/-- The property read `obj.key`: the value of the property, `undefined` when absent. -/
def JsObject.get (obj : JsObject) (key : String) : JsValue :=
  match obj.find? (fun kv => kv.1 == key) with
  | some kv => kv.2
  | none => .undefined

/-- One tuple `[id, name, creator, data]` of a `get_all_images` reply. -/
structure ImageRecord where
  id : Nat
  name : String
  creator : String
  data : Uint8Array
  deriving DecidableEq, Repr

/-- One element of `imageList`, the object with keys `id, name, creator, src`. -/
structure ImageEntry where
  id : Nat
  name : String
  creator : String
  src : String
  deriving DecidableEq, Repr

/-- A call of a backend method with its arguments. -/
inductive RpcCall where
  | greet (name : String)
  | set_name (name : String)
  | upload_image (name : String) (data : List Nat)
  | get_all_images (limit : Option Nat)
  | delete_image (id : Nat)
  | whoami
  deriving DecidableEq, Repr

/-- An observable effect of a handler. `console.log` and friends are left out. -/
inductive Effect where
  | preventDefault
  | toastSuccess (msg : String)
  | toastError (msg : String)
  | toastInfo (msg : String)
  | toastWarn (msg : String)
  | rpc (caller : Identity) (call : RpcCall)
  deriving DecidableEq, Repr

/-- Whether an effect is a call to the backend. -/
def Effect.isRpc : Effect → Bool
  | .rpc _ _ => true
  | _ => false

/-- Whether an effect is a `get_all_images` call, the refresh of the image list. -/
def Effect.isRefresh : Effect → Bool
  | .rpc _ (.get_all_images _) => true
  | _ => false

/-- How the provider flow opened by `authClient.login` ends. On `success` the client holds
a delegation for the principal and runs `onSuccess`; the three failures run `onError` if
one was passed; `rejects` is the promise of `login` itself rejecting. -/
inductive LoginFlow where
  | success (principal : String)
  | userCancelled
  | providerError
  | timeout
  | rejects (e : JsError)
  deriving DecidableEq, Repr

/-- Whether the flow reaches `onSuccess`. -/
def LoginFlow.succeeded : LoginFlow → Bool
  | .success _ => true
  | _ => false

/-- The answers of the outside world to a handler: the reply of the backend to each call
(given the calling identity), how the library calls `Actor.createActor`,
`authClient.login` and `authClient.logout` end, and the number of arguments the JavaScript
engine accepts in one call, which is at least the `0xffff` the decode loop of `App.jsx`
passes. -/
structure World where
  greet : Identity → String → Completion String
  set_name : Identity → String → Completion Unit
  upload_image : Identity → String → List Nat → Completion Nat
  get_all_images : Identity → Option Nat → Completion (List ImageRecord)
  delete_image : Identity → Nat → Completion JsObject
  whoami : Identity → Completion String
  createActor : Option JsError
  loginFlow : LoginFlow
  logout : Option JsError
  maxArguments : Nat
  maxArguments_ge : chunkSize ≤ maxArguments

/-- The `TypeError` of calling a method on `null`. -/
def nullTypeError : JsError :=
  { isError := true, message := "Cannot read properties of null" }

/-! ## The codec inside `fetchImages` and `handleUploadImage` -/

/-- The fixed header of the template string, up to the `$` of line 223. -/
def mimeHeader : String := "data:image/jpeg;base64,"

/-- The callback of `images.map(([id, name, creator, data]) => ...)` for one base64
routine, applied along the array; the first throw ends the map. -/
def mapImages (toBase64 : Uint8Array → Completion String) :
    List ImageRecord → Completion (List ImageEntry)
  | [] => .ok []
  | r :: rest =>
    match toBase64 r.data with
    | .throw e => .throw e
    | .ok base64Data =>
      match mapImages toBase64 rest with
      | .throw e => .throw e
      | .ok tl =>
        .ok ({ id := r.id, name := r.name, creator := r.creator,
               src := mimeHeader ++ base64Data } :: tl)

/-- The array `Array.from(imageData)`: the numbers of the view, in order. -/
def arrayFrom (imageData : Uint8Array) : List Nat :=
  imageData.map (fun b => b.val)

/-! ## `App.jsx` -/

namespace App

/-- The `useState` cells of the component in `App.jsx`. -/
structure State where
  authClient : Option AuthClient
  identity : Option Identity
  authActor : Option Actor
  greeting : String
  name : String
  imageName : String
  imageData : Option Uint8Array
  allImages : List ImageEntry
  deriving DecidableEq, Repr

/-- The initial values of the `useState` cells. -/
def State.init : State :=
  { authClient := none, identity := none, authActor := none, greeting := "", name := "",
    imageName := "", imageData := none, allImages := [] }

/-- A handler run to completion: the state after its `setX` calls, and what it did. -/
structure Run where
  state : State
  effects : List Effect
  deriving DecidableEq, Repr

/-- The body of the `images.map` callback of `fetchImages` (lines 209-225). -/
def imageList (images : List ImageRecord) : Completion (List ImageEntry) :=
  mapImages base64DataChunked images

/-- The `catch` of `fetchImages` (lines 229-236). -/
def fetchImagesCatch (e : JsError) : Effect :=
  if e.isError then .toastError ("Error fetching images: " ++ e.message)
  else .toastError "An unexpected error occurred while fetching images"

/-- The function `fetchImages` (lines 199-237), reading `authActor` from the snapshot `st`. -/
def fetchImages (w : World) (st : State) : Run :=
  match st.authActor with
  | none => { state := st, effects := [.toastError "Not authenticated"] }
  | some authActor =>
    let call := Effect.rpc authActor.identity (.get_all_images (some 100))
    match w.get_all_images authActor.identity (some 100) with
    | .throw e => { state := st, effects := [call, fetchImagesCatch e] }
    | .ok images =>
      match imageList images with
      | .throw e => { state := st, effects := [call, fetchImagesCatch e] }
      | .ok imageList => { state := { st with allImages := imageList }, effects := [call] }

/-- The function `handleAuthenticated` (lines 58-86). The `fetchImages()` of line 81 is
the one of the same render, so it reads the snapshot `st`; its `setAllImages`, if any, is
applied on top of the `setIdentity` and `setAuthActor` made before it. -/
def handleAuthenticated (w : World) (st : State) (client : AuthClient) : Run :=
  let identity := client.identity
  match w.createActor with
  | some e =>
    { state := { st with identity := some identity },
      effects := [.toastError ("Error handling authentication: " ++ e.message)] }
  | none =>
    let newAuthActor : Actor := { identity := identity }
    let r := fetchImages w st
    { state := { st with identity := some identity, authActor := some newAuthActor,
                         allImages := r.state.allImages },
      effects := .toastSuccess "Authenticated successfully!" :: r.effects }

/-- The function `handleLogin` (lines 88-101). No `onError` is passed, so a failed provider
flow runs nothing. -/
def handleLogin (w : World) (st : State) : Run :=
  match st.authClient with
  | none => { state := st, effects := [.toastError ("Login failed: " ++ nullTypeError.message)] }
  | some _ =>
    match w.loginFlow with
    | .success principal =>
      let client : AuthClient := { identity := .delegation principal }
      let r := handleAuthenticated w st client
      { state := { r.state with authClient := some client }, effects := r.effects }
    | .rejects e => { state := st, effects := [.toastError ("Login failed: " ++ e.message)] }
    | .userCancelled => { state := st, effects := [] }
    | .providerError => { state := st, effects := [] }
    | .timeout => { state := st, effects := [] }

/-- The function `handleLogout` (lines 103-113). -/
def handleLogout (w : World) (st : State) : Run :=
  match st.authClient with
  | none => { state := st, effects := [.toastError ("Logout failed: " ++ nullTypeError.message)] }
  | some _ =>
    match w.logout with
    | some e => { state := st, effects := [.toastError ("Logout failed: " ++ e.message)] }
    | none =>
      { state := { st with authClient := some { identity := .anonymous },
                           identity := none, authActor := none },
        effects := [.toastSuccess "Logged out successfully!"] }

/-- The function `handleGreetSubmit` (lines 115-129). -/
def handleGreetSubmit (w : World) (st : State) : Run :=
  match st.authActor with
  | none => { state := st, effects := [.preventDefault, .toastError "Not authenticated"] }
  | some authActor =>
    let call := Effect.rpc authActor.identity (.greet st.name)
    match w.greet authActor.identity st.name with
    | .ok greeting =>
      { state := { st with greeting := greeting },
        effects := [.preventDefault, call, .toastSuccess "Greeting received!"] }
    | .throw e =>
      { state := st,
        effects := [.preventDefault, call, .toastError ("Error greeting: " ++ e.message)] }

/-- The function `handleSetNameSubmit` (lines 131-144). -/
def handleSetNameSubmit (w : World) (st : State) : Run :=
  match st.authActor with
  | none => { state := st, effects := [.preventDefault, .toastError "Not authenticated"] }
  | some authActor =>
    let call := Effect.rpc authActor.identity (.set_name st.name)
    match w.set_name authActor.identity st.name with
    | .ok _ =>
      { state := st, effects := [.preventDefault, call, .toastSuccess "Name set successfully!"] }
    | .throw e =>
      { state := st,
        effects := [.preventDefault, call, .toastError ("Error setting name: " ++ e.message)] }

/-- The `onload` callback of the file input (lines 305-307):
`setImageData(new Uint8Array(event.target.result))`. -/
def onFileLoad (st : State) (result : Uint8Array) : State :=
  { st with imageData := some result }

/-- The function `handleUploadImage` (lines 146-167). A `Uint8Array` is truthy whatever its
length; a string is truthy when it is not empty. -/
def handleUploadImage (w : World) (st : State) : Run :=
  match st.authActor with
  | none => { state := st, effects := [.preventDefault, .toastError "Not authenticated"] }
  | some authActor =>
    match st.imageData with
    | none =>
      { state := st, effects := [.preventDefault, .toastError "Please select an image to upload."] }
    | some imageData =>
      if st.imageName != "" then
        let call := Effect.rpc authActor.identity (.upload_image st.imageName (arrayFrom imageData))
        match w.upload_image authActor.identity st.imageName (arrayFrom imageData) with
        | .ok id =>
          let r := fetchImages w st
          { state := r.state,
            effects := [.preventDefault, call,
              .toastSuccess ("Image uploaded successfully with ID: " ++ toString id)] ++ r.effects }
        | .throw e =>
          { state := st,
            effects := [.preventDefault, call, .toastError ("Error uploading image: " ++ e.message)] }
      else
        { state := st, effects := [.preventDefault, .toastError "Please select an image to upload."] }

/-- The `catch` of `handleDeleteImage` (lines 189-196). -/
def handleDeleteImageCatch (e : JsError) : Effect :=
  if e.isError then .toastError ("Error deleting image: " ++ e.message)
  else .toastError "An unexpected error occurred while deleting the image"

/-- The function `handleDeleteImage` (lines 169-197). -/
def handleDeleteImage (w : World) (st : State) (id : Nat) : Run :=
  match st.authActor with
  | none => { state := st, effects := [.toastError "Not authenticated"] }
  | some authActor =>
    let call := Effect.rpc authActor.identity (.delete_image id)
    match w.delete_image authActor.identity id with
    | .throw e => { state := st, effects := [call, handleDeleteImageCatch e] }
    | .ok result =>
      if result.hasKey "Success" then
        let r := fetchImages w st
        { state := r.state,
          effects := [call, .toastSuccess "Image deleted successfully!"] ++ r.effects }
      else if result.hasKey "NotAuthorized" then
        { state := st, effects := [call, .toastError "You are not authorized to delete this image."] }
      else if result.hasKey "NotFound" then
        { state := st, effects := [call, .toastError "Image not found."] }
      else
        { state := st,
          effects := [call, .toastError "An unexpected error occurred while deleting the image."] }

/-- The function `whoami` (lines 239-253). The reply is given as its `JSON.stringify` text. -/
def whoami (w : World) (st : State) : Run :=
  match st.authActor with
  | none => { state := st, effects := [.toastError "Not authenticated"] }
  | some authActor =>
    match st.identity with
    | none => { state := st, effects := [.toastError nullTypeError.message] }
    | some _ =>
      let call := Effect.rpc authActor.identity .whoami
      match w.whoami authActor.identity with
      | .ok me => { state := st, effects := [call, .toastSuccess me] }
      | .throw e => { state := st, effects := [call, .toastError e.message] }

/-- The operations a user can start on the record façade, with the argument each takes
apart from the state. -/
inductive FacadeOp where
  | greet
  | setName
  | upload
  | delete (id : Nat)
  | list
  | whoami
  deriving DecidableEq, Repr

/-- The handler behind each façade operation. -/
def runOp (w : World) (st : State) : FacadeOp → Run
  | .greet => handleGreetSubmit w st
  | .setName => handleSetNameSubmit w st
  | .upload => handleUploadImage w st
  | .delete id => handleDeleteImage w st id
  | .list => fetchImages w st
  | .whoami => whoami w st

end App

/-! ## `text.jsx` -/

namespace Text

/-- The `useState` cells of the component in `text.jsx`, and with them the one piece of
module state its handlers touch: the identity held by the agent of the imported
`auth_backend` actor (`Actor.agentOf(auth_backend)`), which every call of `auth_backend`
is signed with. -/
structure State where
  authClient : Option AuthClient
  identity : Option Identity
  principalId : String
  greeting : String
  name : String
  imageName : String
  imageData : Option Uint8Array
  allImages : List ImageEntry
  uploadedImageId : Option Nat
  agentIdentity : Identity
  deriving DecidableEq, Repr

/-- The initial values of the `useState` cells; the agent of the generated `auth_backend`
actor starts anonymous. -/
def State.init : State :=
  { authClient := none, identity := none, principalId := "", greeting := "", name := "",
    imageName := "", imageData := none, allImages := [], uploadedImageId := none,
    agentIdentity := .anonymous }

/-- A handler run to completion: the state after it, and what it did. -/
structure Run where
  state : State
  effects : List Effect
  deriving DecidableEq, Repr

/-- The body of the `images.map` callback of `fetchImages` (lines 144-148). -/
def imageList (w : World) (images : List ImageRecord) : Completion (List ImageEntry) :=
  mapImages (base64DataSinglePass w.maxArguments) images

/-- The function `fetchImages` (lines 139-153). The `catch` also takes what the `then`
callback throws. -/
def fetchImages (w : World) (st : State) : Run :=
  let call := Effect.rpc st.agentIdentity (.get_all_images none)
  match w.get_all_images st.agentIdentity none with
  | .throw _ =>
    { state := st, effects := [.toastInfo "Fetching images", call, .toastError "Failed to fetch images"] }
  | .ok images =>
    match imageList w images with
    | .throw _ =>
      { state := st,
        effects := [.toastInfo "Fetching images", call, .toastError "Failed to fetch images"] }
    | .ok imageList =>
      { state := { st with allImages := imageList },
        effects := [.toastInfo "Fetching images", call, .toastSuccess "Images fetched successfully"] }

/-- The function `handleSuccess` (lines 38-47). -/
def handleSuccess (w : World) (st : State) (client : AuthClient) : Run :=
  let identity := client.identity
  let st1 := { st with identity := some identity, principalId := identity.principalText,
                       agentIdentity := identity }
  let r := fetchImages w st1
  { state := r.state, effects := .toastSuccess "Login successful" :: r.effects }

/-- The function `handleLogin` (lines 49-71). The promise of `login` is not awaited, so its
rejection reaches no handler. -/
def handleLogin (w : World) (st : State) : Run :=
  match st.authClient with
  | none => { state := st, effects := [.toastError "AuthClient not initialized"] }
  | some _ =>
    match w.loginFlow with
    | .success principal =>
      let client : AuthClient := { identity := .delegation principal }
      let r := handleSuccess w { st with authClient := some client } client
      { state := r.state, effects := .toastInfo "Initiating login process" :: r.effects }
    | .rejects _ => { state := st, effects := [.toastInfo "Initiating login process"] }
    | .userCancelled =>
      { state := st, effects := [.toastInfo "Initiating login process", .toastError "Login failed"] }
    | .providerError =>
      { state := st, effects := [.toastInfo "Initiating login process", .toastError "Login failed"] }
    | .timeout =>
      { state := st, effects := [.toastInfo "Initiating login process", .toastError "Login failed"] }

/-- The function `handleLogout` (lines 73-80): `authClient.logout()`, `setIdentity(null)`,
`setPrincipalId("")` and a toast. Nothing in it names `auth_backend` or its agent. -/
def handleLogout (w : World) (st : State) : Run :=
  match st.authClient with
  | none => { state := st, effects := [] }
  | some _ =>
    match w.logout with
    | some _ => { state := st, effects := [] }
    | none =>
      { state := { st with authClient := some { identity := .anonymous },
                           identity := none, principalId := "" },
        effects := [.toastInfo "Logged out successfully"] }

/-- The function `handleGreetSubmit` (lines 82-92). -/
def handleGreetSubmit (w : World) (st : State) : Run :=
  let call := Effect.rpc st.agentIdentity (.greet st.name)
  match w.greet st.agentIdentity st.name with
  | .ok greeting =>
    { state := { st with greeting := greeting },
      effects := [.preventDefault, .toastInfo "Sending greet request", call,
        .toastSuccess "Greeting received"] }
  | .throw _ =>
    { state := st,
      effects := [.preventDefault, .toastInfo "Sending greet request", call,
        .toastError "Failed to get greeting"] }

/-- The function `handleSetNameSubmit` (lines 94-103). -/
def handleSetNameSubmit (w : World) (st : State) : Run :=
  let call := Effect.rpc st.agentIdentity (.set_name st.name)
  match w.set_name st.agentIdentity st.name with
  | .ok _ =>
    { state := st,
      effects := [.preventDefault, .toastInfo "Setting name", call,
        .toastSuccess "Name set successfully!"] }
  | .throw _ =>
    { state := st,
      effects := [.preventDefault, .toastInfo "Setting name", call, .toastError "Failed to set name"] }

/-- The function `handleUploadImage` (lines 105-120). -/
def handleUploadImage (w : World) (st : State) : Run :=
  match st.imageData with
  | none =>
    { state := st, effects := [.preventDefault, .toastWarn "Please select an image to upload."] }
  | some imageData =>
    if st.imageName != "" then
      let call := Effect.rpc st.agentIdentity (.upload_image st.imageName (arrayFrom imageData))
      match w.upload_image st.agentIdentity st.imageName (arrayFrom imageData) with
      | .ok id =>
        let r := fetchImages w { st with uploadedImageId := some id }
        { state := r.state,
          effects := [.preventDefault, .toastInfo "Uploading image", call,
            .toastSuccess ("Image uploaded successfully with ID: " ++ toString id)] ++ r.effects }
      | .throw _ =>
        { state := st,
          effects := [.preventDefault, .toastInfo "Uploading image", call,
            .toastError "Failed to upload image"] }
    else
      { state := st, effects := [.preventDefault, .toastWarn "Please select an image to upload."] }

/-- The function `handleDeleteImage` (lines 122-137): the branches test the truthiness of
the property values `result.Success` and `result.NotAuthorized`. -/
def handleDeleteImage (w : World) (st : State) (id : Nat) : Run :=
  let call := Effect.rpc st.agentIdentity (.delete_image id)
  match w.delete_image st.agentIdentity id with
  | .throw _ =>
    { state := st,
      effects := [.toastInfo "Deleting image", call, .toastError "Error occurred while deleting image"] }
  | .ok result =>
    if (result.get "Success").truthy then
      let r := fetchImages w st
      { state := r.state,
        effects := [.toastInfo "Deleting image", call,
          .toastSuccess "Image deleted successfully!"] ++ r.effects }
    else if (result.get "NotAuthorized").truthy then
      { state := st,
        effects := [.toastInfo "Deleting image", call,
          .toastError "You are not authorized to delete this image."] }
    else
      { state := st,
        effects := [.toastInfo "Deleting image", call,
          .toastError "Failed to delete image. Image not found."] }

end Text

/-! ## Outcomes of a delete, as the user is told -/

/-- What a run of a delete handler told the user. -/
inductive DeleteReport where
  | success
  | notAuthorized
  | notFound
  | unexpected
  | other
  deriving DecidableEq, Repr

/-- The report a toast of either delete handler stands for. -/
def reportOfToast : Effect → Option DeleteReport
  | .toastSuccess "Image deleted successfully!" => some .success
  | .toastError "You are not authorized to delete this image." => some .notAuthorized
  | .toastError "Image not found." => some .notFound
  | .toastError "Failed to delete image. Image not found." => some .notFound
  | .toastError "An unexpected error occurred while deleting the image." => some .unexpected
  | _ => none

/-- The report of a run: that of the first toast that is a delete report. -/
def deleteReport (effects : List Effect) : DeleteReport :=
  (effects.findSome? reportOfToast).getD .other

/-- The variant a candid reply of `delete_image` decodes to: one key, the tag, holding
`null`. -/
def variantObject (tag : String) : JsObject := [(tag, .null)]

/-! ## Concrete inputs -/

/-- A backend that holds two images, one of three bytes that are no JPEG and one empty,
and answers every delete with `Success`; the provider flow is cancelled by the user; the
engine accepts 65536 arguments in one call. -/
def sampleWorld : World :=
  { greet := fun _ name => .ok ("Hello, " ++ name ++ "!")
    set_name := fun _ _ => .ok ()
    upload_image := fun _ _ _ => .ok 3
    get_all_images := fun _ _ =>
      .ok [{ id := 1, name := "cat.jpg", creator := "alice", data := [77, 97, 110] },
           { id := 2, name := "none", creator := "bob", data := [] }]
    delete_image := fun _ _ => .ok (variantObject "Success")
    whoami := fun caller => .ok caller.principalText
    createActor := none
    loginFlow := .userCancelled
    logout := none
    maxArguments := 65536
    maxArguments_ge := by decide }

/-- The same backend, with a provider flow that delegates for the principal `alice`. -/
def aliceWorld : World := { sampleWorld with loginFlow := .success "alice" }

/-- A buffer of 200000 zero bytes. -/
def largeBuffer : Uint8Array := List.replicate 200000 0

/-- The same backend and engine, holding one image, `cat.jpg` of 200000 bytes. -/
def largeWorld : World :=
  { sampleWorld with
    get_all_images := fun _ _ =>
      .ok [{ id := 7, name := "cat.jpg", creator := "alice", data := largeBuffer }] }

/-- A session of `App.jsx` bound to a delegation for `alice`. -/
def App.boundState : App.State :=
  { App.State.init with
    authClient := some { identity := .delegation "alice" }
    identity := some (.delegation "alice")
    authActor := some { identity := .delegation "alice" }
    imageName := "cat.jpg" }

/-- A session of `App.jsx` with an auth client and nobody logged in. -/
def App.unboundState : App.State :=
  { App.State.init with authClient := some { identity := .anonymous }, name := "bob" }

/-- A session of `text.jsx` with an auth client and nobody logged in. -/
def Text.freshState : Text.State :=
  { Text.State.init with authClient := some { identity := .anonymous }, name := "bob" }

end Auth

/-! # Theorems -/

namespace Auth

/-! ## Strings and bytes -/

theorem charOfByte_toNat (b : Byte) : (charOfByte b).toNat = b.val := by
  have hb : b.val < 256 := b.isLt
  have hv : b.val.isValidChar := Or.inl (by omega)
  unfold charOfByte Char.ofNat
  rw [dif_pos hv]
  simp [Char.ofNatAux, Char.toNat, UInt32.toNat]

theorem byteOfChar_charOfByte (b : Byte) : byteOfChar (charOfByte b) = b := by
  apply Fin.ext
  simp only [byteOfChar, charOfByte_toNat]
  exact Nat.mod_eq_of_lt b.isLt

theorem join_data_aux (chunks : List String) (acc : String) :
    (chunks.foldl (fun acc s => acc ++ s) acc).data
      = acc.data ++ (chunks.map String.data).flatten := by
  induction chunks generalizing acc with
  | nil => simp
  | cons s rest ih => simp [ih, String.data_append, List.append_assoc]

theorem join_data (chunks : List String) :
    (join chunks).data = (chunks.map String.data).flatten := by
  simp [join, join_data_aux]

theorem join_fromCharCode (calls : List Uint8Array) :
    join (calls.map fromCharCode) = fromCharCode calls.flatten := by
  apply String.ext
  rw [join_data]
  simp [fromCharCode, List.map_flatten, Function.comp_def]

theorem btoa_fromCharCode (bytes : Uint8Array) :
    btoa (fromCharCode bytes) = .ok (String.mk (base64Encode bytes)) := by
  have hall : (fromCharCode bytes).data.all (fun c => decide (c.toNat ≤ 255)) = true := by
    simp only [fromCharCode, List.all_eq_true, List.mem_map, decide_eq_true_eq]
    rintro c ⟨b, -, rfl⟩
    rw [charOfByte_toNat]
    have := b.isLt
    omega
  have hback : (fromCharCode bytes).data.map byteOfChar = bytes := by
    simp [fromCharCode, Function.comp_def, byteOfChar_charOfByte]
  simp [btoa, hall, hback]

theorem base64Encode_length (bytes : List Byte) :
    (base64Encode bytes).length = 4 * ((bytes.length + 2) / 3) := by
  induction bytes using base64Encode.induct with
  | case1 => simp [base64Encode]
  | case2 a => simp [base64Encode]
  | case3 a b => simp [base64Encode]
  | case4 a b c rest ih =>
    simp only [base64Encode, List.length_cons, ih]
    omega

/-! ## The decode loop -/

theorem lt_numChunks_iff (j n : Nat) : j < numChunks n ↔ j * chunkSize < n := by
  simp only [numChunks, chunkSize]
  omega

theorem decodeLoop_slices (u : Uint8Array) (m j : Nat) (st : LoopState)
    (hm : numChunks u.length - j = m) :
    decodeLoop u (j * chunkSize) st
      = { chunks := st.chunks ++ ((List.range' j m).map (slice u)).map fromCharCode,
          calls := st.calls ++ (List.range' j m).map (slice u) } := by
  induction m generalizing j st with
  | zero =>
    have hge : ¬ j * chunkSize < u.length := by
      rw [← lt_numChunks_iff]
      omega
    rw [decodeLoop, if_neg hge]
    simp
  | succ m ih =>
    have hlt : j * chunkSize < u.length := by
      rw [← lt_numChunks_iff]
      omega
    have hnext : j * chunkSize + chunkSize = (j + 1) * chunkSize := by
      rw [Nat.add_mul, Nat.one_mul]
    rw [decodeLoop, if_pos hlt]
    simp only []
    rw [hnext, ih (j + 1) _ (by omega)]
    simp [List.range'_succ, slice, hnext]

theorem decodeChunks_calls (u : Uint8Array) :
    (decodeChunks u).calls = (List.range (numChunks u.length)).map (slice u) := by
  have h := decodeLoop_slices u (numChunks u.length) 0 { chunks := [], calls := [] } (by simp)
  rw [Nat.zero_mul] at h
  rw [decodeChunks, h, List.range_eq_range']
  simp

theorem decodeChunks_chunks (u : Uint8Array) :
    (decodeChunks u).chunks = (decodeChunks u).calls.map fromCharCode := by
  have h := decodeLoop_slices u (numChunks u.length) 0 { chunks := [], calls := [] } (by simp)
  rw [Nat.zero_mul] at h
  rw [decodeChunks, h]
  simp

theorem slices_flatten (u : Uint8Array) (m : Nat) :
    ((List.range m).map (slice u)).flatten = u.take (m * chunkSize) := by
  induction m with
  | zero => simp
  | succ m ih =>
    rw [List.range_succ, List.map_append, List.flatten_append, ih]
    simp only [List.map_cons, List.map_nil, List.flatten_cons, List.flatten_nil,
      List.append_nil, slice, subarray]
    have h1 : u.take (m * chunkSize)
        = (u.take (m * chunkSize + chunkSize)).take (m * chunkSize) := by
      rw [List.take_take]
      congr 1
      omega
    rw [h1, List.take_append_drop, Nat.add_mul, Nat.one_mul]

theorem calls_flatten (u : Uint8Array) : (decodeChunks u).calls.flatten = u := by
  rw [decodeChunks_calls, slices_flatten]
  apply List.take_of_length_le
  have h : ¬ numChunks u.length < numChunks u.length := Nat.lt_irrefl _
  rw [lt_numChunks_iff] at h
  omega

theorem slice_length (u : Uint8Array) (k : Nat) :
    (slice u k).length = min chunkSize (u.length - k * chunkSize) := by
  simp only [slice, subarray, List.length_drop, List.length_take]
  omega

theorem join_chunks (u : Uint8Array) : join (decodeChunks u).chunks = fromCharCode u := by
  rw [decodeChunks_chunks, join_fromCharCode, calls_flatten]

theorem base64DataChunked_eq (data : Uint8Array) :
    base64DataChunked data = .ok (String.mk (base64Encode data)) := by
  rw [base64DataChunked, join_chunks, btoa_fromCharCode]

/-! ## Media codec: claims -/

/-- C6: the payload `Array.from(imageData)` of an upload has the length of the selected
buffer, holds at every index the byte of the buffer at that index, and only numbers in
`0..255`; with a bound client and a non-empty image name, `handleUploadImage` passes exactly
this payload to `upload_image`, and no other. -/
theorem upload_payload_raw (B : Uint8Array) :
    (arrayFrom B).length = B.length
      ∧ (∀ i (h : i < B.length), (arrayFrom B)[i]? = some (B.get ⟨i, h⟩).val)
      ∧ (∀ x ∈ arrayFrom B, x < 256)
      ∧ ∀ (w : World) (st : App.State) (authActor : Actor),
          st.authActor = some authActor → st.imageName ≠ "" →
          Effect.rpc authActor.identity (.upload_image st.imageName (arrayFrom B))
              ∈ (App.handleUploadImage w (App.onFileLoad st B)).effects
            ∧ ∀ caller name payload,
                Effect.rpc caller (.upload_image name payload)
                    ∈ (App.handleUploadImage w (App.onFileLoad st B)).effects →
                  payload = arrayFrom B := by
  refine ⟨by simp [arrayFrom], ?_, ?_, ?_⟩
  · intro i h
    simp [arrayFrom, List.getElem?_map, List.getElem?_eq_getElem h]
  · intro x hx
    simp only [arrayFrom, List.mem_map] at hx
    obtain ⟨b, -, rfl⟩ := hx
    exact b.isLt
  · intro w st authActor hact hname
    have hne : (st.imageName != "") = true := by simpa using hname
    cases hup : w.upload_image authActor.identity st.imageName (arrayFrom B) with
    | ok id =>
      simp only [App.handleUploadImage, App.onFileLoad, hact, hne, hup, if_true]
      refine ⟨by simp, ?_⟩
      intro caller name payload hmem
      simp only [List.mem_append, List.mem_cons, List.mem_singleton, List.not_mem_nil,
        or_false] at hmem
      rcases hmem with (h | h | h) | h
      · cases h
      · cases h; rfl
      · cases h
      · exfalso
        revert h
        simp only [App.fetchImages, hact]
        split
        · simp [App.fetchImagesCatch]; split <;> simp
        · split
          · simp [App.fetchImagesCatch]; split <;> simp
          · simp
    | throw e =>
      simp only [App.handleUploadImage, App.onFileLoad, hact, hne, hup, if_true]
      refine ⟨by simp, ?_⟩
      intro caller name payload hmem
      simp only [List.mem_cons, List.mem_singleton, List.not_mem_nil, or_false] at hmem
      rcases hmem with h | h | h
      · cases h
      · cases h; rfl
      · cases h

/-- Witness of C6 at the buffer `[255, 0, 128]` in a session bound to `alice`. -/
theorem upload_payload_raw_witness :
    App.boundState.authActor = some { identity := .delegation "alice" }
      ∧ App.boundState.imageName ≠ ""
      ∧ Effect.rpc (.delegation "alice") (.upload_image "cat.jpg" (arrayFrom [255, 0, 128]))
          ∈ (App.handleUploadImage sampleWorld (App.onFileLoad App.boundState [255, 0, 128])).effects :=
  ⟨rfl, by decide,
    ((upload_payload_raw [255, 0, 128]).2.2.2 sampleWorld App.boundState
      { identity := .delegation "alice" } rfl (by decide)).1⟩

theorem mapImages_ok (toBase64 : Uint8Array → Completion String)
    (h : ∀ data, toBase64 data = .ok (String.mk (base64Encode data)))
    (images : List ImageRecord) :
    mapImages toBase64 images
      = .ok (images.map fun r =>
          { id := r.id, name := r.name, creator := r.creator,
            src := mimeHeader ++ String.mk (base64Encode r.data) }) := by
  induction images with
  | nil => rfl
  | cons r rest ih => simp [mapImages, h, ih]

/-- C8: for every buffer of `n` bytes the chunked decode yields a base64 payload of exactly
`4 * ceil(n / 3)` characters, however many chunks `n` spans; a buffer of 200000 bytes is
decoded in four chunks and yields 266668 characters. -/
theorem chunked_payload_length (data : Uint8Array) :
    ∃ payload, base64DataChunked data = .ok payload
      ∧ payload.length = 4 * ((data.length + 2) / 3)
      ∧ (data.length = 200000 →
          (decodeChunks data).calls.length = 4 ∧ payload.length = 266668) := by
  refine ⟨String.mk (base64Encode data), base64DataChunked_eq data, ?_, ?_⟩
  · exact base64Encode_length data
  · intro hlen
    refine ⟨?_, ?_⟩
    · rw [decodeChunks_calls, List.length_map, List.length_range, hlen]
      decide
    · show (base64Encode data).length = 266668
      rw [base64Encode_length, hlen]

/-- Witness of C8 at a buffer of 200000 zero bytes. -/
theorem chunked_payload_length_witness :
    ∃ payload, base64DataChunked (List.replicate 200000 0) = .ok payload
      ∧ (decodeChunks (List.replicate 200000 0)).calls.length = 4
      ∧ payload.length = 266668 := by
  obtain ⟨payload, hok, -, h⟩ := chunked_payload_length (List.replicate 200000 0)
  exact ⟨payload, hok, h (List.length_replicate _ _)⟩

/-- C9: the decode loop is total; on a buffer of `n` bytes it calls
`String.fromCharCode.apply` exactly `ceil(n / 65535)` times, the `k`-th call (from 0) on
the slice `subarray(k * 65535, k * 65535 + 65535)`; every call gets between 1 and 65535
bytes, every call but the last exactly 65535; the arguments concatenated in call order are
the buffer; an empty buffer brings no call. -/
theorem decodeLoop_calls (u : Uint8Array) :
    (decodeChunks u).calls.length = (u.length + 65534) / 65535
      ∧ (∀ k, k < (decodeChunks u).calls.length →
          (decodeChunks u).calls[k]? = some (subarray u (k * 65535) (k * 65535 + 65535)))
      ∧ (∀ c ∈ (decodeChunks u).calls, 1 ≤ c.length ∧ c.length ≤ 65535)
      ∧ (∀ k, k + 1 < (decodeChunks u).calls.length →
          ((decodeChunks u).calls[k]?).map List.length = some 65535)
      ∧ (decodeChunks u).calls.flatten = u
      ∧ (decodeChunks u).chunks = (decodeChunks u).calls.map fromCharCode
      ∧ (decodeChunks ([] : Uint8Array)).calls = [] := by
  have hlen : (decodeChunks u).calls.length = numChunks u.length := by
    rw [decodeChunks_calls, List.length_map, List.length_range]
  have hget : ∀ k, k < numChunks u.length → (decodeChunks u).calls[k]? = some (slice u k) := by
    intro k hk
    rw [decodeChunks_calls, List.getElem?_map, List.getElem?_range hk]
    rfl
  refine ⟨?_, ?_, ?_, ?_, calls_flatten u, decodeChunks_chunks u, ?_⟩
  · rw [hlen]
    rfl
  · intro k hk
    rw [hlen] at hk
    rw [hget k hk]
    rfl
  · intro c hc
    rw [decodeChunks_calls, List.mem_map] at hc
    obtain ⟨k, hk, rfl⟩ := hc
    rw [List.mem_range, lt_numChunks_iff] at hk
    rw [slice_length]
    simp only [chunkSize] at hk ⊢
    omega
  · intro k hk
    rw [hlen] at hk
    have hk1 : (k + 1) * chunkSize < u.length := (lt_numChunks_iff _ _).1 hk
    rw [hget k (by omega), Option.map_some', slice_length]
    simp only [chunkSize] at hk1 ⊢
    congr 1
    omega
  · rw [decodeChunks_calls]
    rfl

/-! ## Record façade of `App.jsx`: claims -/

theorem App.fetchImages_bound (w : World) (st : App.State) (authActor : Actor)
    (hact : st.authActor = some authActor) :
    ∃ tail, (App.fetchImages w st).effects
        = Effect.rpc authActor.identity (.get_all_images (some 100)) :: tail
      ∧ tail.any Effect.isRefresh = false := by
  simp only [App.fetchImages, hact]
  cases hq : w.get_all_images authActor.identity (some 100) with
  | throw e =>
    refine ⟨[App.fetchImagesCatch e], by simp, ?_⟩
    simp only [App.fetchImagesCatch]
    split <;> rfl
  | ok images =>
    cases hi : App.imageList images with
    | throw e =>
      refine ⟨[App.fetchImagesCatch e], by simp [hi], ?_⟩
      simp only [App.fetchImagesCatch]
      split <;> rfl
    | ok entries => exact ⟨[], by simp [hi], rfl⟩

theorem App.runOp_unbound (w : World) (st : App.State) (op : App.FacadeOp)
    (h : st.authActor = none) :
    (App.runOp w st op).state = st
      ∧ ((App.runOp w st op).effects = [.toastError "Not authenticated"]
          ∨ (App.runOp w st op).effects = [.preventDefault, .toastError "Not authenticated"])
      ∧ (App.runOp w st op).effects.any Effect.isRpc = false := by
  cases op <;>
    simp [App.runOp, App.handleGreetSubmit, App.handleSetNameSubmit, App.handleUploadImage,
      App.handleDeleteImage, App.fetchImages, App.whoami, h, Effect.isRpc]

/-- C2: in `App.jsx` `handleDeleteImage` with a bound client, a backend reply that is an
object is reported by its keys alone: with `Success` (whatever it holds) success is
reported and `fetchImages` is run, which calls `get_all_images`; else with `NotAuthorized`
not-authorized is reported; else with `NotFound` not-found; else the unexpected-error
outcome. The three latter leave the state as it was and make no further call: the image
list is refreshed exactly when the reply has the key `Success`. -/
theorem handleDeleteImage_by_tag (w : World) (st : App.State) (authActor : Actor) (id : Nat)
    (result : JsObject)
    (hact : st.authActor = some authActor)
    (hreply : w.delete_image authActor.identity id = .ok result) :
    (result.hasKey "Success" = true →
        (App.handleDeleteImage w st id).effects
            = [.rpc authActor.identity (.delete_image id),
               .toastSuccess "Image deleted successfully!"] ++ (App.fetchImages w st).effects
          ∧ (App.handleDeleteImage w st id).state = (App.fetchImages w st).state
          ∧ Effect.rpc authActor.identity (.get_all_images (some 100))
              ∈ (App.handleDeleteImage w st id).effects
          ∧ deleteReport (App.handleDeleteImage w st id).effects = .success)
      ∧ (result.hasKey "Success" = false → result.hasKey "NotAuthorized" = true →
          App.handleDeleteImage w st id
            = { state := st,
                effects := [.rpc authActor.identity (.delete_image id),
                  .toastError "You are not authorized to delete this image."] })
      ∧ (result.hasKey "Success" = false → result.hasKey "NotAuthorized" = false →
          result.hasKey "NotFound" = true →
          App.handleDeleteImage w st id
            = { state := st,
                effects := [.rpc authActor.identity (.delete_image id),
                  .toastError "Image not found."] })
      ∧ (result.hasKey "Success" = false → result.hasKey "NotAuthorized" = false →
          result.hasKey "NotFound" = false →
          App.handleDeleteImage w st id
            = { state := st,
                effects := [.rpc authActor.identity (.delete_image id),
                  .toastError "An unexpected error occurred while deleting the image."] })
      ∧ (App.handleDeleteImage w st id).effects.any Effect.isRefresh
          = result.hasKey "Success" := by
  obtain ⟨tail, htail, hno⟩ := App.fetchImages_bound w st authActor hact
  have hsucc : result.hasKey "Success" = true →
      App.handleDeleteImage w st id
        = { state := (App.fetchImages w st).state,
            effects := [.rpc authActor.identity (.delete_image id),
              .toastSuccess "Image deleted successfully!"] ++ (App.fetchImages w st).effects } := by
    intro hs
    simp [App.handleDeleteImage, hact, hreply, hs]
  refine ⟨?_, ?_, ?_, ?_, ?_⟩
  · intro hs
    rw [hsucc hs]
    refine ⟨rfl, rfl, ?_, ?_⟩
    · rw [htail]
      simp
    · rfl
  · intro hs hna
    simp [App.handleDeleteImage, hact, hreply, hs, hna]
  · intro hs hna hnf
    simp [App.handleDeleteImage, hact, hreply, hs, hna, hnf]
  · intro hs hna hnf
    simp [App.handleDeleteImage, hact, hreply, hs, hna, hnf]
  · cases hs : result.hasKey "Success" with
    | true =>
      rw [hsucc hs, htail]
      simp [Effect.isRefresh]
    | false =>
      cases hna : result.hasKey "NotAuthorized" <;> cases hnf : result.hasKey "NotFound" <;>
        simp [App.handleDeleteImage, hact, hreply, hs, hna, hnf, Effect.isRefresh]

/-- Witness of C2: a delete answered `Success` with payload `null`, in a session bound to
`alice`. -/
theorem handleDeleteImage_by_tag_witness :
    App.boundState.authActor = some { identity := .delegation "alice" }
      ∧ sampleWorld.delete_image (.delegation "alice") 1 = .ok (variantObject "Success")
      ∧ (App.handleDeleteImage sampleWorld App.boundState 1).effects.any Effect.isRefresh
          = (variantObject "Success").hasKey "Success" :=
  ⟨rfl, rfl,
    (handleDeleteImage_by_tag sampleWorld App.boundState { identity := .delegation "alice" } 1
      (variantObject "Success") rfl rfl).2.2.2.2⟩

/-- C3: in `App.jsx`, when `authActor` is null, every façade operation (greet, set name,
upload image, delete image, list images, whoami), whatever its arguments and whatever the
backend would answer, only reports `Not authenticated`: it makes no call to the backend and
leaves every state cell as it was. -/
theorem unbound_facade_fails (w : World) (st : App.State) (op : App.FacadeOp)
    (h : st.authActor = none) :
    (App.runOp w st op).state = st
      ∧ ((App.runOp w st op).effects = [.toastError "Not authenticated"]
          ∨ (App.runOp w st op).effects = [.preventDefault, .toastError "Not authenticated"])
      ∧ (App.runOp w st op).effects.any Effect.isRpc = false :=
  App.runOp_unbound w st op h

/-- Witness of C3: a delete of image 1 with nobody logged in. -/
theorem unbound_facade_fails_witness :
    App.unboundState.authActor = none
      ∧ (App.runOp sampleWorld App.unboundState (.delete 1)).state = App.unboundState
      ∧ (App.runOp sampleWorld App.unboundState (.delete 1)).effects.any Effect.isRpc = false :=
  ⟨rfl, (unbound_facade_fails sampleWorld App.unboundState (.delete 1) rfl).1,
    (unbound_facade_fails sampleWorld App.unboundState (.delete 1) rfl).2.2⟩

/-- C5: from a session of `App.jsx` with `identity` and `authActor` null, a `handleLogin`
whose provider flow does not reach `onSuccess` (user cancel, provider error, timeout, or a
rejected `login`) changes no state cell and calls no backend method, so `identity` and
`authActor` stay null, and every façade operation run afterwards only reports
`Not authenticated`, without a call and without a state change. -/
theorem failed_login_stays_unbound (w : World) (st : App.State)
    (hid : st.identity = none) (hact : st.authActor = none)
    (hflow : w.loginFlow.succeeded = false) :
    (App.handleLogin w st).state = st
      ∧ (App.handleLogin w st).state.identity = none
      ∧ (App.handleLogin w st).state.authActor = none
      ∧ (App.handleLogin w st).effects.any Effect.isRpc = false
      ∧ ∀ (w2 : World) (op : App.FacadeOp),
          (App.runOp w2 (App.handleLogin w st).state op).state = st
            ∧ ((App.runOp w2 (App.handleLogin w st).state op).effects
                  = [.toastError "Not authenticated"]
                ∨ (App.runOp w2 (App.handleLogin w st).state op).effects
                  = [.preventDefault, .toastError "Not authenticated"])
            ∧ (App.runOp w2 (App.handleLogin w st).state op).effects.any Effect.isRpc
                = false := by
  have hst : (App.handleLogin w st).state = st := by
    unfold App.handleLogin
    cases st.authClient with
    | none => rfl
    | some client =>
      cases hf : w.loginFlow with
      | success principal => simp [hf, LoginFlow.succeeded] at hflow
      | userCancelled => rfl
      | providerError => rfl
      | timeout => rfl
      | rejects e => rfl
  have heff : (App.handleLogin w st).effects.any Effect.isRpc = false := by
    unfold App.handleLogin
    cases st.authClient with
    | none => rfl
    | some client =>
      cases hf : w.loginFlow with
      | success principal => simp [hf, LoginFlow.succeeded] at hflow
      | userCancelled => rfl
      | providerError => rfl
      | timeout => rfl
      | rejects e => rfl
  refine ⟨hst, ?_, ?_, heff, ?_⟩
  · rw [hst, hid]
  · rw [hst, hact]
  · intro w2 op
    rw [hst]
    exact App.runOp_unbound w2 st op hact

/-- Witness of C5: the user cancels the provider flow, with nobody logged in. -/
theorem failed_login_stays_unbound_witness :
    App.unboundState.identity = none
      ∧ App.unboundState.authActor = none
      ∧ sampleWorld.loginFlow.succeeded = false
      ∧ (App.handleLogin sampleWorld App.unboundState).state = App.unboundState :=
  ⟨rfl, rfl, rfl, (failed_login_stays_unbound sampleWorld App.unboundState rfl rfl rfl).1⟩

/-! ## Logout -/

theorem App.handleLogout_unbinds (w : World) (st : App.State) (client : AuthClient)
    (hclient : st.authClient = some client) (hdone : w.logout = none) :
    (App.handleLogout w st).state.identity = none
      ∧ (App.handleLogout w st).state.authActor = none
      ∧ ∀ (w2 : World) (op : App.FacadeOp),
          (App.runOp w2 (App.handleLogout w st).state op).effects.any Effect.isRpc = false := by
  have hst : (App.handleLogout w st).state.authActor = none := by
    simp [App.handleLogout, hclient, hdone]
  refine ⟨by simp [App.handleLogout, hclient, hdone], hst, ?_⟩
  intro w2 op
  exact (App.runOp_unbound w2 _ op hst).2.2

theorem Text.handleLogout_agentIdentity (w : World) (st : Text.State) :
    (Text.handleLogout w st).state.agentIdentity = st.agentIdentity := by
  unfold Text.handleLogout
  cases st.authClient with
  | none => rfl
  | some client =>
    cases w.logout with
    | none => rfl
    | some e => rfl

/-- C4, the code at a failing input: in `text.jsx`, after a login as `alice` and a logout
that completes, `identity` is null while the agent of `auth_backend` still signs as
`alice`, and a greet submitted then reaches the backend under the delegation of `alice`;
`handleLogout` of `text.jsx` never changes the identity of that agent. -/
theorem text_logout_keeps_identity :
    (Text.handleLogin aliceWorld Text.freshState).state.agentIdentity = .delegation "alice"
      ∧ (Text.handleLogout aliceWorld
            (Text.handleLogin aliceWorld Text.freshState).state).state.identity = none
      ∧ (Text.handleLogout aliceWorld
            (Text.handleLogin aliceWorld Text.freshState).state).effects
          = [.toastInfo "Logged out successfully"]
      ∧ (Text.handleLogout aliceWorld
            (Text.handleLogin aliceWorld Text.freshState).state).state.agentIdentity
          = .delegation "alice"
      ∧ (Text.handleGreetSubmit aliceWorld
            (Text.handleLogout aliceWorld
              (Text.handleLogin aliceWorld Text.freshState).state).state).effects
          = [.preventDefault, .toastInfo "Sending greet request",
             .rpc (.delegation "alice") (.greet "bob"), .toastSuccess "Greeting received"]
      ∧ ∀ (w : World) (st : Text.State),
          (Text.handleLogout w st).state.agentIdentity = st.agentIdentity := by
  refine ⟨by decide, by decide, by decide, by decide, by decide, ?_⟩
  exact Text.handleLogout_agentIdentity

/-! ## Delete in `text.jsx` -/

theorem App.handleDeleteImage_success_report (w : World) (st : App.State) (authActor : Actor)
    (id : Nat) (result : JsObject) (hact : st.authActor = some authActor)
    (hreply : w.delete_image authActor.identity id = .ok result)
    (hs : result.hasKey "Success" = true) :
    deleteReport (App.handleDeleteImage w st id).effects = .success := by
  have h : App.handleDeleteImage w st id
      = { state := (App.fetchImages w st).state,
          effects := [.rpc authActor.identity (.delete_image id),
            .toastSuccess "Image deleted successfully!"] ++ (App.fetchImages w st).effects } := by
    simp [App.handleDeleteImage, hact, hreply, hs]
  rw [h]
  rfl

/-- C10, the code at the failing inputs: on the reply `Success` with payload `null`,
`handleDeleteImage` of `text.jsx` reports not-found and does not refresh the list, where
`handleDeleteImage` of `App.jsx` reports success; on `NotAuthorized` with payload `null` it
reports not-found as well. -/
theorem text_delete_misreports :
    Text.handleDeleteImage sampleWorld Text.freshState 1
        = { state := Text.freshState,
            effects := [.toastInfo "Deleting image", .rpc .anonymous (.delete_image 1),
              .toastError "Failed to delete image. Image not found."] }
      ∧ sampleWorld.delete_image .anonymous 1 = .ok (variantObject "Success")
      ∧ deleteReport (Text.handleDeleteImage sampleWorld Text.freshState 1).effects = .notFound
      ∧ (Text.handleDeleteImage sampleWorld Text.freshState 1).effects.any Effect.isRefresh
          = false
      ∧ deleteReport (App.handleDeleteImage sampleWorld App.boundState 1).effects = .success
      ∧ deleteReport
          (Text.handleDeleteImage
            { sampleWorld with delete_image := fun _ _ => .ok (variantObject "NotAuthorized") }
            Text.freshState 1).effects = .notFound := by
  refine ⟨by decide, rfl, by decide, by decide, ?_, by decide⟩
  exact App.handleDeleteImage_success_report sampleWorld App.boundState
    { identity := .delegation "alice" } 1 (variantObject "Success") rfl rfl (by decide)

/-! ## The one-step decode of `text.jsx` -/

theorem base64DataSinglePass_of_le (maxArguments : Nat) (B : Uint8Array)
    (h : B.length ≤ maxArguments) :
    base64DataSinglePass maxArguments B = .ok (String.mk (base64Encode B)) := by
  simp only [base64DataSinglePass, fromCharCodeSpread, if_pos h]
  exact btoa_fromCharCode B

theorem base64DataSinglePass_of_lt (maxArguments : Nat) (B : Uint8Array)
    (h : maxArguments < B.length) :
    base64DataSinglePass maxArguments B = .throw rangeError := by
  simp only [base64DataSinglePass, fromCharCodeSpread, if_neg (Nat.not_le.2 h)]

theorem decodeChunks_calls_accepted (w : World) (u : Uint8Array) :
    ∀ c ∈ (decodeChunks u).calls,
      fromCharCodeSpread w.maxArguments c = .ok (fromCharCode c) := by
  intro c hc
  rw [decodeChunks_calls, List.mem_map] at hc
  obtain ⟨k, -, rfl⟩ := hc
  have hlen : (slice u k).length ≤ chunkSize := by
    rw [slice_length]
    exact Nat.min_le_left _ _
  simp only [fromCharCodeSpread, if_pos (Nat.le_trans hlen w.maxArguments_ge)]

theorem largeBuffer_length : largeBuffer.length = 200000 := by
  rw [largeBuffer, List.length_replicate]

theorem largeBuffer_throws :
    base64DataSinglePass sampleWorld.maxArguments largeBuffer = .throw rangeError := by
  apply base64DataSinglePass_of_lt
  rw [largeBuffer_length]
  decide

/-- C1, the code at a failing input: on a buffer of 200000 bytes and an engine that accepts
65536 arguments in one call, the one-step decode of `text.jsx` `fetchImages` throws a
`RangeError` at the spread, where the chunked decode of `App.jsx` yields the single-pass
base64 encoding of the buffer. The chunked decode yields that encoding for every buffer;
the one-step decode equals it exactly for the buffers within the argument bound of the
engine and throws beyond it. -/
theorem single_pass_throws_on_large :
    base64DataSinglePass sampleWorld.maxArguments largeBuffer = .throw rangeError
      ∧ base64DataChunked largeBuffer = .ok (String.mk (base64Encode largeBuffer))
      ∧ base64DataChunked largeBuffer
          ≠ base64DataSinglePass sampleWorld.maxArguments largeBuffer
      ∧ (∀ B : Uint8Array, base64DataChunked B = .ok (String.mk (base64Encode B)))
      ∧ (∀ (maxArguments : Nat) (B : Uint8Array), B.length ≤ maxArguments →
          base64DataSinglePass maxArguments B = base64DataChunked B)
      ∧ (∀ (maxArguments : Nat) (B : Uint8Array), maxArguments < B.length →
          base64DataSinglePass maxArguments B = .throw rangeError) := by
  refine ⟨largeBuffer_throws, base64DataChunked_eq _, ?_, base64DataChunked_eq, ?_,
    base64DataSinglePass_of_lt⟩
  · rw [largeBuffer_throws, base64DataChunked_eq]
    intro h
    cases h
  · intro maxArguments B h
    rw [base64DataSinglePass_of_le maxArguments B h, base64DataChunked_eq]

theorem Text.imageList_throws (w : World) (r : ImageRecord) (rest : List ImageRecord)
    (h : w.maxArguments < r.data.length) :
    Text.imageList w (r :: rest) = .throw rangeError := by
  simp only [Text.imageList, mapImages, base64DataSinglePass_of_lt _ _ h]

theorem Text.fetchImages_throws (w : World) (st : Text.State) (images : List ImageRecord)
    (hreply : w.get_all_images st.agentIdentity none = .ok images)
    (hthrow : Text.imageList w images = .throw rangeError) :
    Text.fetchImages w st
      = { state := st,
          effects := [.toastInfo "Fetching images", .rpc st.agentIdentity (.get_all_images none),
            .toastError "Failed to fetch images"] } := by
  simp only [Text.fetchImages, hreply, hthrow]

theorem largeWorld_exceeded : largeWorld.maxArguments < largeBuffer.length := by
  rw [largeBuffer_length]
  decide

/-- C7, the code at a failing input: when the backend holds the image `cat.jpg` of 200000
bytes and the engine accepts 65536 arguments in one call, `fetchImages` of `text.jsx`
builds no list: it reports `Failed to fetch images` and leaves `allImages` as it was,
where `fetchImages` of `App.jsx` stores the entry with `src` the text
`data:image/jpeg;base64,` followed by the base64 encoding of the bytes. In `App.jsx` the
list has, for every reply, one entry per record, in order, with `id`, `name`, `creator`
and that `src`; `text.jsx` builds the same list when every record is within the argument
bound of the engine. -/
theorem text_fetchImages_large_record :
    Text.fetchImages largeWorld Text.freshState
        = { state := Text.freshState,
            effects := [.toastInfo "Fetching images", .rpc .anonymous (.get_all_images none),
              .toastError "Failed to fetch images"] }
      ∧ (App.fetchImages largeWorld App.boundState).state.allImages
          = [{ id := 7, name := "cat.jpg", creator := "alice",
               src := "data:image/jpeg;base64," ++ String.mk (base64Encode largeBuffer) }]
      ∧ (∀ images : List ImageRecord,
          App.imageList images
            = .ok (images.map fun r =>
                { id := r.id, name := r.name, creator := r.creator,
                  src := "data:image/jpeg;base64," ++ String.mk (base64Encode r.data) }))
      ∧ (∀ (w : World) (st : App.State) (authActor : Actor) (images : List ImageRecord),
          st.authActor = some authActor →
          w.get_all_images authActor.identity (some 100) = .ok images →
          (App.fetchImages w st).state.allImages
            = images.map fun r =>
                { id := r.id, name := r.name, creator := r.creator,
                  src := "data:image/jpeg;base64," ++ String.mk (base64Encode r.data) })
      ∧ (∀ (w : World) (images : List ImageRecord),
          (∀ r ∈ images, r.data.length ≤ w.maxArguments) →
          Text.imageList w images = App.imageList images) := by
  have happ : ∀ images : List ImageRecord, App.imageList images = _ :=
    mapImages_ok base64DataChunked base64DataChunked_eq
  have hfetch : ∀ (w : World) (st : App.State) (authActor : Actor) (images : List ImageRecord),
      st.authActor = some authActor →
      w.get_all_images authActor.identity (some 100) = .ok images →
      (App.fetchImages w st).state.allImages
        = images.map fun r =>
            { id := r.id, name := r.name, creator := r.creator,
              src := mimeHeader ++ String.mk (base64Encode r.data) } := by
    intro w st authActor images hact hreply
    simp only [App.fetchImages, hact, hreply, happ images]
  refine ⟨?_, ?_, happ, hfetch, ?_⟩
  · exact Text.fetchImages_throws largeWorld Text.freshState
      [{ id := 7, name := "cat.jpg", creator := "alice", data := largeBuffer }] rfl
      (Text.imageList_throws largeWorld _ [] largeWorld_exceeded)
  · exact hfetch largeWorld App.boundState { identity := .delegation "alice" } _ rfl rfl
  · intro w images hle
    rw [happ images, Text.imageList]
    induction images with
    | nil => rfl
    | cons r rest ih =>
      have hr : r.data.length ≤ w.maxArguments := hle r (List.mem_cons_self _ _)
      have hrest : ∀ x ∈ rest, x.data.length ≤ w.maxArguments :=
        fun x hx => hle x (List.mem_cons_of_mem _ hx)
      simp [mapImages, base64DataSinglePass_of_le _ _ hr, ih hrest]

end Auth
